import Mathlib

/-!
Verification of the clustering/encapsulation graph-rewrite pass of
openvino_tensorflow against its specification.

The development shallowly embeds the two source files
`openvino_tensorflow/grappler/ovtf_optimizer.cc` and
`openvino_tensorflow/ovtf_graph_iterator.h`.  Pure helper routines become
Lean functions; the process-wide serial counter, the cluster-manager caches
and the `GraphDef* output` argument become explicit state threaded through
`OptimizeP`.  Callees whose bodies are not part of the excerpt
(`AddIdentityN`, `AssignClusters`, `DeassignClusters`, `EncapsulateClusters`)
are a record of parameters (`Phases`); where a claim needs their behaviour
they are additionally modelled from the specification (definitions marked
`Modelled from the spec:`).
-/

namespace OVTF

/-- Value of a TensorFlow node attribute, restricted to the shapes this pass
reads and writes (booleans for the clustering marker, integers, strings). -/
inductive AttrVal where
  | b : Bool → AttrVal
  | i : Int → AttrVal
  | s : String → AttrVal
deriving DecidableEq, Repr

/-- A graph node (`NodeDef` / in-memory `Node`): name, operation type tag,
producer names of its inputs, attribute list, and the cluster label.
Cluster labels live in node attributes in the original code; they are
modelled as a dedicated field so that the phases' bookkeeping is visible. -/
structure Node where
  name : String
  op : String
  input : List String
  attrs : List (String × AttrVal)
  cluster : Option Nat := none
deriving DecidableEq, Repr

/-- A graph: node list plus the graph-level already-processed marker.
Modelled from the spec: the idempotence marker is "a graph-level attribute
set on first successful run" (the body of `util::IsAlreadyProcessed` is not
part of the excerpt), so it is carried as a boolean field. -/
structure Graph where
  node : List Node
  alreadyProcessed : Bool := false
deriving DecidableEq, Repr

/-- The serialized form and the in-memory form share the embedding; the
`ConvertGraphDefToGraph` / `ToGraphDef` round trips are modelled as the
identity guarded by an explicit conversion status. -/
abbrev GraphDef := Graph

/-- A TensorFlow `Status`: OK or an error message. -/
inductive Status where
  | ok : Status
  | error : String → Status
deriving DecidableEq, Repr

/- ------------------------------------------------------------------ -/
/- OVTFGraphIterator (ovtf_graph_iterator.h, lines 26-61)              -/
/- ------------------------------------------------------------------ -/

/-- `OVTFGraphIterator`: node pointer vector and current position.  The
constructor loop (lines 28-32) sets `m_nodes[i] = &graph_def->node(i)`,
i.e. `m_nodes` is the node list of the graph in order. -/
structure OVTFGraphIterator where
  m_nodes : List Node
  node_index : Nat
deriving DecidableEq, Repr

/-- Constructor `OVTFGraphIterator(const GraphDef*)` (lines 28-32). -/
def OVTFGraphIterator.ofGraphDef (g : GraphDef) : OVTFGraphIterator :=
  { m_nodes := g.node, node_index := 0 }

/-- `reset()` (lines 35-37): set iterator to the start position. -/
def OVTFGraphIterator.reset (it : OVTFGraphIterator) : OVTFGraphIterator :=
  { it with node_index := 0 }

/-- `size()` (lines 39-41). -/
def OVTFGraphIterator.size (it : OVTFGraphIterator) : Nat :=
  it.m_nodes.length

/-- `next()` (lines 44-46): move to the next node. -/
def OVTFGraphIterator.next (it : OVTFGraphIterator) : OVTFGraphIterator :=
  { it with node_index := it.node_index + 1 }

/-- `is_end()` (lines 48-50): `node_index >= m_nodes.size()`. -/
def OVTFGraphIterator.is_end (it : OVTFGraphIterator) : Bool :=
  decide (it.node_index ≥ it.m_nodes.length)

/-- `get_decoder()` (lines 53-55) wraps `m_nodes[node_index]` in an
`OVTFDecoder`; the decoder is identified with the node it wraps.  The C++
vector subscript is defined only in bounds, hence the `Option`. -/
def OVTFGraphIterator.get_decoder (it : OVTFGraphIterator) : Option Node :=
  it.m_nodes.get? it.node_index

/-- `k` successive calls of `next()`. -/
def OVTFGraphIterator.nextIter (it : OVTFGraphIterator) : Nat → OVTFGraphIterator
  | 0 => it
  | k + 1 => (OVTFGraphIterator.nextIter it k).next

/- ------------------------------------------------------------------ -/
/- OVTFOptimizer::FreshIndex (ovtf_optimizer.cc, lines 228-231)        -/
/- ------------------------------------------------------------------ -/

/-- `FreshIndex()` (lines 228-231): under the serial-counter mutex, return
`s_serial_counter++`, i.e. the current counter value, incrementing the
counter.  The process-wide counter is threaded explicitly. -/
def FreshIndex (s_serial_counter : Nat) : Nat × Nat :=
  (s_serial_counter, s_serial_counter + 1)

/-- Counter value after `k` successive calls to `FreshIndex`, starting
from `c`. -/
def counterAfter (c : Nat) : Nat → Nat
  | 0 => c
  | k + 1 => (FreshIndex (counterAfter c k)).snd

/-- Value returned by the `(k+1)`-st successive call to `FreshIndex` when
the counter starts at `c`. -/
def nthFreshIndex (c k : Nat) : Nat :=
  (FreshIndex (counterAfter c k)).fst

/- ------------------------------------------------------------------ -/
/- Fetch-name extraction (ovtf_optimizer.cc, lines 136-141)            -/
/- ------------------------------------------------------------------ -/

/-- `f.find(":")` of `std::string`: index of the first occurrence of the
character, `none` standing for `npos`. -/
def findColon (f : String) : Option Nat :=
  f.data.findIdx? (fun c => c == ':')

/-- Lines 138-140: `int pos = f.find(":"); fetch_nodes.insert(f.substr(0, pos))`.
When no colon occurs, `npos` truncates to `-1` in `int` and converts back to
`npos` in `substr`, which then yields the whole string. -/
def fetchNodeName (f : String) : String :=
  match findColon f with
  | some pos => ⟨f.data.take pos⟩
  | none => f

/-- `std::set` insertion on a duplicate-free list: no-op on a present
element, append otherwise. -/
def setInsert (s : List String) (x : String) : List String :=
  if x ∈ s then s else s ++ [x]

/-- The `fetch_nodes` set built by the loop of lines 137-141: one insertion
per fetch entry. -/
def fetchNodesOf (fetch : List String) : List String :=
  fetch.foldl (fun s f => setInsert s (fetchNodeName f)) []

/- ------------------------------------------------------------------ -/
/- OVTFOptimizer::Init (ovtf_optimizer.cc, lines 35-44)                -/
/- ------------------------------------------------------------------ -/

/-- `std::map` assignment `m[k] = v`: overwrite the binding if the key is
present, append it otherwise. -/
def mapSet (m : List (String × String)) (k v : String) : List (String × String) :=
  if m.any (fun p => p.fst == k) then
    m.map (fun p => if p.fst == k then (k, v) else p)
  else m ++ [(k, v)]

/-- Association-list lookup for the configuration map. -/
def mapFind (m : List (String × String)) (k : String) : Option String :=
  match m.find? (fun p => p.fst == k) with
  | some p => some p.snd
  | none => none

/-- `OVTFOptimizer::Init` (lines 35-44): for every parameter `(k, v)` of the
rewriter configuration, set `m_config_map["_ovtf_" + k] = v.s()`, then
return `Status::OK()`.  Parameter values are taken as the string payloads
the loop reads. -/
def Init (params : List (String × String)) : List (String × String) × Status :=
  (params.foldl (fun m p => mapSet m ("_ovtf_" ++ p.fst) p.snd) [], Status.ok)

/- ------------------------------------------------------------------ -/
/- OVTFOptimizer::Optimize (ovtf_optimizer.cc, lines 46-226)           -/
/- ------------------------------------------------------------------ -/

/-- External process/library context consulted by `Optimize`: the
`OPENVINO_TF_DISABLE` environment variable, the python enable/disable API,
the disabled-ops set, the statuses of graph conversion (line 60), cost
estimator initialization (lines 69-71) and `BackendManager::GetBackendName`
(line 178), the backend capability oracle behind OCM (which answers per
operation type), and the per-op attribute setters of
`GetAttributeSetters` (lines 195-204), which rewrite attribute lists. -/
structure Env where
  openvinoTfDisable : Option String
  apiEnabled : Bool
  disabledOps : List String
  convertStatus : Status
  estimatorInitStatus : Status
  getBackendName : Status
  supported : String → Bool
  attrSetters : String → Option (List (String × AttrVal) → List (String × AttrVal))

/-- Result of a phase whose body is not part of the excerpt: a rewritten
graph or a non-OK status message. -/
inductive GRes where
  | ok : Graph → GRes
  | error : String → GRes
deriving DecidableEq, Repr

/-- The four callees of `Optimize` whose bodies are outside the excerpt,
with exactly the argument lists the source passes them:
`AddIdentityN(&graph, nodes_to_add_identity_to)` (line 155),
`AssignClusters(&graph)` (line 209), `DeassignClusters(&graph)` (line 213),
`EncapsulateClusters(&graph, idx, m_config_map)` (line 217). -/
structure Phases where
  addIdentityN : Graph → List String → GRes
  assignClusters : Graph → GRes
  deassignClusters : Graph → GRes
  encapsulateClusters : Graph → Nat → List (String × String) → GRes

/-- Observable pipeline events: a `util::DumpTFGraph(&graph, idx, tag)`
call site, a phase running over the whole graph, and the encapsulation
call with the pass index and the forwarded configuration map. -/
inductive Event where
  | dump : Nat → String → Event
  | phase : String → Event
  | encap : Nat → List (String × String) → Event
deriving DecidableEq, Repr

/-- How an `Optimize` invocation ends: `Status::OK()`, a C++ exception
escaping the call (the `throw runtime_error` of line 180), or a non-OK
`Status` returned to the caller. -/
inductive OptResult where
  | ok : OptResult
  | thrown : String → OptResult
  | statusError : String → OptResult
deriving DecidableEq, Repr

/-- The `NGraphClusterManager` caches: cluster bookkeeping evicted by
`EvictAllClusters()` and `EvictMRUClusters()` (lines 105-106). -/
structure ClusterManagerState where
  clusters : List Nat
  mruClusters : List Nat
deriving DecidableEq, Repr

/-- A grappler item: graph plus caller metadata — feeds (name/tensor
pairs, only the name is read), fetch names, keep-alive names, init-op
names. -/
structure GrapplerItem where
  graph : Graph
  feed : List (String × Unit)
  fetch : List String
  keep_ops : List String
  init_ops : List String
deriving DecidableEq, Repr

/-- Everything an `Optimize` call leaves behind: how it returned, what was
written through the `GraphDef* output` pointer (`none` when no
`ToGraphDef` executed), the dump/phase events in order, the serial counter
and the cluster-manager caches afterwards. -/
structure OptOutcome where
  result : OptResult
  output : Option Graph
  events : List Event
  counter : Nat
  cm : ClusterManagerState
deriving DecidableEq, Repr

/-- Lines 87-95: `ovtf_not_enabled` is true when the environment variable
is set and its first character is `'1'` (for an empty `std::string`,
`s[0]` is the null character, which is not `'1'`). -/
def firstCharIsOne (v : String) : Bool :=
  match v.data with
  | [] => false
  | c :: _ => c == '1'

/-- Line 96: `ovtf_not_enabled = (!api::IsEnabled() || ovtf_not_enabled)`
combined with the environment check of lines 87-95. -/
def ovtfNotEnabled (env : Env) : Bool :=
  !env.apiEnabled ||
    (match env.openvinoTfDisable with
     | none => false
     | some v => firstCharIsOne v)

/-- Lines 114-125: `nodes_to_preserve` — feed names, keep-op names,
init-op names. -/
def nodesToPreserveOf (item : GrapplerItem) : List String :=
  item.feed.map Prod.fst ++ item.keep_ops ++ item.init_ops

/-- Lines 128-134: names of graph nodes whose operation type is in the
disabled-ops set. -/
def disabledNodesOf (env : Env) (g : Graph) : List String :=
  (g.node.filter (fun n => env.disabledOps.contains n.op)).map Node.name

/-- Lines 144-148: `nodes_to_add_identity_to = fetch_nodes - disabled_nodes`. -/
def nodesToAddIdentityToOf (env : Env) (item : GrapplerItem) : List String :=
  (fetchNodesOf item.fetch).filter
    (fun n => !((disabledNodesOf env item.graph).contains n))

/-- Attribute update `node->AddAttr(k, v)`: overwrite or append. -/
def setAttr (attrs : List (String × AttrVal)) (k : String) (v : AttrVal) :
    List (String × AttrVal) :=
  if attrs.any (fun p => p.fst == k) then
    attrs.map (fun p => if p.fst == k then (k, v) else p)
  else attrs ++ [(k, v)]

/-- Modelled from the spec: OCM's `FrameworkNodesChecker::MarkSupportedNodes`
(the `ocm` library is external).  The capability oracle answers per
operation type; nodes of a disabled type (passed via `SetDisabledOps`,
line 190) are excluded.  Returns the node names to be marked. -/
def markSupportedNodes (supported : String → Bool) (disabledOps : List String)
    (g : Graph) : List String :=
  (g.node.filter (fun n => supported n.op && !(disabledOps.contains n.op))).map Node.name

/-- The marking loop of lines 197-205: each node returned by OCM gets the
attribute `_ovtf_marked_for_clustering = true` and, when a setter is
registered for its operation type, the setter applied to its attributes. -/
def markNodes (env : Env) (g : Graph) : Graph :=
  let names := markSupportedNodes env.supported env.disabledOps g
  { g with node := g.node.map (fun n =>
      if names.contains n.name then
        let n1 : Node :=
          { n with attrs := setAttr n.attrs "_ovtf_marked_for_clustering" (AttrVal.b true) }
        match env.attrSetters n1.op with
        | some f => { n1 with attrs := f n1.attrs }
        | none => n1
      else n) }

/-- `OVTFOptimizer::Optimize` (lines 46-226), parametric in the callees
whose bodies are outside the excerpt.  Mirrors the source control flow:
graph conversion (line 60), estimator initialization (lines 69-71),
`FreshIndex` (line 81), the disable/already-processed fast exit
(lines 87-109, evicting the cluster caches and writing the unchanged graph
through `output`), the protected/disabled/fetch bookkeeping
(lines 114-158; note `nodes_to_preserve` is never passed to any callee),
`AddIdentityN` (line 155), the `"unmarked"` dump (line 173), the backend
name check that throws on failure (lines 177-181), marking
(lines 188-206), cluster assignment (line 209), deassignment (line 213),
encapsulation (lines 216-221) and the final `ToGraphDef` (line 224). -/
def OptimizeP (ph : Phases) (env : Env) (m_config_map : List (String × String))
    (item : GrapplerItem) (counter : Nat) (cm : ClusterManagerState) : OptOutcome :=
  match env.convertStatus with
  | Status.error e => ⟨OptResult.statusError e, none, [], counter, cm⟩
  | Status.ok =>
  match env.estimatorInitStatus with
  | Status.error e => ⟨OptResult.statusError e, none, [], counter, cm⟩
  | Status.ok =>
  let idx := (FreshIndex counter).fst
  let counter1 := (FreshIndex counter).snd
  match ovtfNotEnabled env || item.graph.alreadyProcessed with
  | true => ⟨OptResult.ok, some item.graph, [], counter1, ⟨[], []⟩⟩
  | false =>
  let nodes_to_preserve := nodesToPreserveOf item
  let nodes_to_add_identity_to := nodesToAddIdentityToOf env item
  match ph.addIdentityN item.graph nodes_to_add_identity_to with
  | GRes.error e => ⟨OptResult.statusError e, none, [], counter1, cm⟩
  | GRes.ok g1 =>
  -- nodes_to_preserve ∪= nodes_to_add_identity_to (lines 157-158); the
  -- union, like nodes_to_preserve itself, flows into no later call.
  let _nodes_to_preserve2 := nodes_to_preserve ++ nodes_to_add_identity_to
  match env.getBackendName with
  | Status.error msg =>
      ⟨OptResult.thrown msg, none, [Event.dump idx "unmarked"], counter1, cm⟩
  | Status.ok =>
  let g2 := markNodes env g1
  match ph.assignClusters g2 with
  | GRes.error e =>
      ⟨OptResult.statusError e, none,
        [Event.dump idx "unmarked", Event.phase "mark", Event.dump idx "marked",
         Event.phase "assign"], counter1, cm⟩
  | GRes.ok g3 =>
  match ph.deassignClusters g3 with
  | GRes.error e =>
      ⟨OptResult.statusError e, none,
        [Event.dump idx "unmarked", Event.phase "mark", Event.dump idx "marked",
         Event.phase "assign", Event.dump idx "clustered",
         Event.phase "deassign"], counter1, cm⟩
  | GRes.ok g4 =>
  match ph.encapsulateClusters g4 idx m_config_map with
  | GRes.error e =>
      ⟨OptResult.statusError e, none,
        [Event.dump idx "unmarked", Event.phase "mark", Event.dump idx "marked",
         Event.phase "assign", Event.dump idx "clustered",
         Event.phase "deassign", Event.dump idx "declustered",
         Event.encap idx m_config_map], counter1, cm⟩
  | GRes.ok g5 =>
      ⟨OptResult.ok, some g5,
        [Event.dump idx "unmarked", Event.phase "mark", Event.dump idx "marked",
         Event.phase "assign", Event.dump idx "clustered",
         Event.phase "deassign", Event.dump idx "declustered",
         Event.encap idx m_config_map, Event.dump idx "encapsulated"],
        counter1, cm⟩

/- ------------------------------------------------------------------ -/
/- Spec-modelled phase bodies                                          -/
/- ------------------------------------------------------------------ -/

/-- Marker attribute test used by the modelled phases. -/
def Node.markedForClustering (n : Node) : Bool :=
  n.attrs.any (fun p => p.fst == "_ovtf_marked_for_clustering" && p.snd == AttrVal.b true)

/-- Modelled from the spec: `AddIdentityN` (declared in ovtf_optimizer.h,
body outside the excerpt) inserts an identity-like pass-through node
immediately downstream of each named node present in the graph, consuming
that node's outputs (spec section 3 and the section 8 fetch scenario; the
zero-output / reference-type skip conditions of the source comment at
lines 150-154 concern output types, which the node model does not carry). -/
def addIdentityNModel (g : Graph) (names : List String) : GRes :=
  let added := (names.filter (fun nm => g.node.any (fun n => n.name == nm))).map
    (fun nm => { name := nm ++ "_ovtf_identity", op := "IdentityN",
                 input := [nm], attrs := [], cluster := none })
  GRes.ok { g with node := g.node ++ added }

/-- Data edges of the graph: `(producer name, consumer name)` pairs read
off every node's input list. -/
def edgeList (g : Graph) : List (String × String) :=
  g.node.foldr (fun n acc => n.input.map (fun i => (i, n.name)) ++ acc) []

/-- Merge the groups containing `a` and `b` in a partition of names. -/
def mergeGroups (p : List (List String)) (a b : String) : List (List String) :=
  match p.find? (fun grp => grp.contains a), p.find? (fun grp => grp.contains b) with
  | some ga, some gb =>
      if ga == gb then p
      else (p.filter (fun grp => !(grp == ga) && !(grp == gb))) ++ [ga ++ gb]
  | _, _ => p

/-- Modelled from the spec: the cluster partition grown by the Cluster
Assigner (assign_clusters.cc, outside the excerpt) — eligible (marked)
nodes start as singletons and two eligible nodes joined by a data edge are
merged into one cluster (spec section 4.2).  The no-new-cycle restriction
on merges only thins this partition further and is not needed by the
properties settled here; ineligible nodes belong to no group. -/
def clusterPartition (g : Graph) : List (List String) :=
  let marked := (g.node.filter Node.markedForClustering).map Node.name
  (edgeList g).foldl
    (fun p e =>
      if marked.contains e.fst && marked.contains e.snd then mergeGroups p e.fst e.snd
      else p)
    (marked.map (fun n => [n]))

/-- Index of the group of a name in the partition, used as cluster label. -/
def groupIndex (p : List (List String)) (nm : String) : Option Nat :=
  p.findIdx? (fun grp => grp.contains nm)

/-- Modelled from the spec: `AssignClusters` labels every eligible node
with its cluster (spec section 4.2); nodes outside every group keep the
"no cluster" label. -/
def assignClustersModel (g : Graph) : GRes :=
  let p := clusterPartition g
  GRes.ok { g with node := g.node.map (fun n =>
    if n.markedForClustering then { n with cluster := groupIndex p n.name }
    else { n with cluster := none }) }

/-- Operation types the spec calls pure pass-through/no-op bookkeeping. -/
def trivialOps : List String := ["NoOp", "Identity", "IdentityN", "Const"]

/-- Modelled from the spec: `DeassignClusters` (deassign_clusters.cc,
outside the excerpt) dissolves a cluster that contains no node whose
operation is other than a pure pass-through/no-op, clearing the label on
every member and leaving topology untouched (spec section 4.3). -/
def deassignClustersModel (g : Graph) : GRes :=
  let viable := fun (l : Nat) =>
    g.node.any (fun n => n.cluster == some l && !(trivialOps.contains n.op))
  GRes.ok { g with node := g.node.map (fun n =>
    match n.cluster with
    | some l => if viable l then n else { n with cluster := none }
    | none => n) }

/-- Name of the fused node of cluster `l` in pass `idx`. -/
def fusedName (idx l : Nat) : String :=
  "ovtf_cluster_" ++ toString idx ++ "_" ++ toString l

/-- Modelled from the spec: `EncapsulateClusters` (encapsulate_clusters.cc,
outside the excerpt).  If some edge's producer cannot be resolved the pass
fails with a graph-integrity error (spec section 4.4); otherwise every
surviving cluster is replaced by one fused node carrying the forwarded
configuration as attributes, external inputs are rewired onto the fused
nodes, and the graph-level already-processed marker is set (spec
section 6, idempotence marker on first successful run). -/
def encapsulateClustersModel (g : Graph) (idx : Nat)
    (cfg : List (String × String)) : GRes :=
  if g.node.any (fun n => n.input.any (fun i => !(g.node.any (fun m => m.name == i)))) then
    GRes.error "dangling edge"
  else
    let labels := (g.node.filterMap (fun n => n.cluster)).dedup
    let memberNames := fun (l : Nat) =>
      (g.node.filter (fun n => n.cluster == some l)).map Node.name
    let relink := fun (i : String) =>
      match g.node.find? (fun m => m.name == i) with
      | some m =>
          match m.cluster with
          | some l => fusedName idx l
          | none => i
      | none => i
    let fused := labels.map (fun l =>
      { name := fusedName idx l, op := "_OVTFEncapsulate",
        input := ((g.node.filter (fun n => n.cluster == some l)).foldr
            (fun n acc => n.input.filter (fun i => !((memberNames l).contains i)) ++ acc)
            []).dedup.map relink,
        attrs := cfg.map (fun p => (p.fst, AttrVal.s p.snd)),
        cluster := none })
    let keep := (g.node.filter (fun n => n.cluster == none)).map
      (fun n => { n with input := n.input.map relink })
    GRes.ok { node := keep ++ fused, alreadyProcessed := true }

/-- The modelled phase record: `Optimize` with its missing callees filled
in from the specification. -/
def specPhases : Phases :=
  { addIdentityN := addIdentityNModel,
    assignClusters := assignClustersModel,
    deassignClusters := deassignClustersModel,
    encapsulateClusters := encapsulateClustersModel }

/-- `Optimize` with the spec-modelled callees. -/
def OptimizeM (env : Env) (m_config_map : List (String × String))
    (item : GrapplerItem) (counter : Nat) (cm : ClusterManagerState) : OptOutcome :=
  OptimizeP specPhases env m_config_map item counter cm

/- ------------------------------------------------------------------ -/
/- Concrete instances used by witnesses and counterexamples            -/
/- ------------------------------------------------------------------ -/

/-- Environment with openvino-tensorflow fully enabled and every external
step succeeding; the oracle supports exactly the `Add` operation type. -/
def envOn : Env :=
  { openvinoTfDisable := none, apiEnabled := true, disabledOps := [],
    convertStatus := Status.ok, estimatorInitStatus := Status.ok,
    getBackendName := Status.ok, supported := fun op => op == "Add",
    attrSetters := fun _ => none }

/-- Environment with `OPENVINO_TF_DISABLE` set to `"10"`. -/
def envDisabled10 : Env :=
  { envOn with openvinoTfDisable := some "10", supported := fun _ => true }

/-- Environment with `OPENVINO_TF_DISABLE` set to `"1"`. -/
def envDisabled1 : Env :=
  { envOn with openvinoTfDisable := some "1", supported := fun _ => true }

/-- Environment in which `BackendManager::GetBackendName` fails. -/
def envNoBackend : Env :=
  { envOn with getBackendName := Status.error "Backend unavailable" }

/-- A one-node item, not yet processed. -/
def itemOneAdd : GrapplerItem :=
  ⟨⟨[⟨"x", "Add", [], [], none⟩], false⟩, [], [], [], []⟩

/-- A one-node item already carrying the processed marker. -/
def itemDone : GrapplerItem :=
  ⟨⟨[⟨"x", "Add", [], [], none⟩], true⟩, [], [], [], []⟩

/-- Feed node `f` of supported type `Add`. -/
def nodeF : Node := ⟨"f", "Add", [], [], none⟩

/-- Node `g` of supported type `Add`, consuming `f`. -/
def nodeG : Node := ⟨"g", "Add", ["f"], [], none⟩

/-- Item whose feed list names node `f`, putting `"f"` into the
protected-node set of lines 114-125. -/
def itemFeedF : GrapplerItem := ⟨⟨[nodeF, nodeG], false⟩, [("f", ())], [], [], []⟩

/-- Node `f` after marking and cluster assignment: marked and labelled
with cluster 0. -/
def nodeFClustered : Node :=
  { nodeF with
    attrs := [("_ovtf_marked_for_clustering", AttrVal.b true)],
    cluster := some 0 }

/-- Node `g` after marking and cluster assignment: marked and labelled
with cluster 0. -/
def nodeGClustered : Node :=
  { nodeG with
    attrs := [("_ovtf_marked_for_clustering", AttrVal.b true)],
    cluster := some 0 }

/-- Phase record whose encapsulation step always fails, the other callees
returning their input graph unchanged. -/
def phasesEncapFail : Phases :=
  { addIdentityN := fun g _ => GRes.ok g,
    assignClusters := fun g => GRes.ok g,
    deassignClusters := fun g => GRes.ok g,
    encapsulateClusters := fun _ _ _ => GRes.error "dangling edge" }

/- ------------------------------------------------------------------ -/
/- Helper lemmas                                                       -/
/- ------------------------------------------------------------------ -/

lemma nextIter_m_nodes (it : OVTFGraphIterator) (k : Nat) :
    (it.nextIter k).m_nodes = it.m_nodes := by
  induction k with
  | zero => rfl
  | succ k ih => simp [OVTFGraphIterator.nextIter, OVTFGraphIterator.next, ih]

lemma nextIter_node_index (it : OVTFGraphIterator) (k : Nat) :
    (it.nextIter k).node_index = it.node_index + k := by
  induction k with
  | zero => rfl
  | succ k ih =>
      simp [OVTFGraphIterator.nextIter, OVTFGraphIterator.next, ih]
      omega

lemma range_map_get? (l : List Node) :
    (List.range l.length).map (fun i => l.get? i) = l.map some := by
  induction l with
  | nil => rfl
  | cons a t ih =>
      rw [List.length_cons, List.range_succ_eq_map, List.map_cons, List.map_map]
      have h2 : ((fun i => (a :: t).get? i) ∘ Nat.succ) = fun i => t.get? i := by
        funext i; rfl
      rw [h2, ih]
      rfl

lemma counterAfter_eq (c k : Nat) : counterAfter c k = c + k := by
  induction k with
  | zero => rfl
  | succ k ih => simp [counterAfter, FreshIndex, ih]; omega

lemma findIdx?_shift (p : Char → Bool) (l : List Char) (i : Nat) :
    l.findIdx? p i = (l.findIdx? p).map (· + i) := by
  induction l generalizing i with
  | nil => rfl
  | cons a t ih =>
      by_cases h : p a
      · simp [List.findIdx?_cons, h]
      · rw [List.findIdx?_cons, if_neg (by simp [h]), List.findIdx?_cons,
          if_neg (by simp [h]), ih, ih 1, Option.map_map]
        refine congrArg₂ _ (funext fun n => ?_) rfl
        simp [Function.comp]
        omega

lemma take_findIdx_eq_takeWhile (p : Char → Bool) (l : List Char) :
    (match l.findIdx? p with
     | some k => l.take k
     | none => l) = l.takeWhile (fun c => !(p c)) := by
  induction l with
  | nil => rfl
  | cons a t ih =>
      by_cases h : p a
      · simp [List.findIdx?_cons, h, List.takeWhile_cons]
      · rw [List.findIdx?_cons, if_neg (by simp [h]), findIdx?_shift,
          List.takeWhile_cons]
        simp only [h, Bool.not_false, if_pos rfl]
        cases hf : t.findIdx? p with
        | none => simpa [hf] using congrArg (a :: ·) (by simpa [hf] using ih)
        | some k => simpa [hf] using congrArg (a :: ·) (by simpa [hf] using ih)

lemma findIdx?_eq_none_of_not_mem (l : List Char) (h : ':' ∉ l) :
    l.findIdx? (fun c => c == ':') = none := by
  induction l with
  | nil => rfl
  | cons a t ih =>
      have ha : (a == ':') = false := by
        simp only [List.mem_cons, not_or] at h
        exact beq_eq_false_iff_ne.mpr (fun e => h.1 e.symm)
      rw [List.findIdx?_cons, if_neg (by simp [ha]), findIdx?_shift,
        ih (by simp only [List.mem_cons, not_or] at h; exact h.2)]
      rfl

lemma takeWhile_colon_split (l : List Char) (h : ':' ∈ l) :
    ∃ rest, l = l.takeWhile (fun c => !(c == ':')) ++ ':' :: rest := by
  induction l with
  | nil => cases h
  | cons a t ih =>
      by_cases ha : a = ':'
      · exact ⟨t, by simp [ha, List.takeWhile_cons]⟩
      · have ht : ':' ∈ t := by
          rcases List.mem_cons.mp h with h1 | h1
          · exact absurd h1.symm ha
          · exact h1
        rcases ih ht with ⟨rest, hr⟩
        refine ⟨rest, ?_⟩
        rw [List.takeWhile_cons, if_pos (by simp [ha])]
        simpa using congrArg (a :: ·) hr

lemma mem_setInsert (s : List String) (x y : String) :
    y ∈ setInsert s x ↔ y ∈ s ∨ y = x := by
  unfold setInsert
  by_cases h : x ∈ s
  · simp only [if_pos h]
    constructor
    · exact Or.inl
    · rintro (hy | rfl)
      · exact hy
      · exact h
  · simp [if_neg h]

lemma mem_foldl_setInsert_of_mem_acc (l : List String) (acc : List String)
    (x : String) (hx : x ∈ acc) :
    x ∈ l.foldl (fun s f => setInsert s (fetchNodeName f)) acc := by
  induction l generalizing acc with
  | nil => exact hx
  | cons a t ih =>
      exact ih _ ((mem_setInsert _ _ _).mpr (Or.inl hx))

lemma mem_foldl_setInsert_of_mem (l : List String) (acc : List String)
    (f : String) (hf : f ∈ l) :
    fetchNodeName f ∈ l.foldl (fun s g => setInsert s (fetchNodeName g)) acc := by
  induction l generalizing acc with
  | nil => cases hf
  | cons a t ih =>
      rw [List.foldl_cons]
      rcases List.mem_cons.mp hf with rfl | hf
      · exact mem_foldl_setInsert_of_mem_acc _ _ _
          ((mem_setInsert _ _ _).mpr (Or.inr rfl))
      · exact ih _ hf

lemma mem_foldl_setInsert_cases (l : List String) (acc : List String)
    (x : String) (hx : x ∈ l.foldl (fun s g => setInsert s (fetchNodeName g)) acc) :
    x ∈ acc ∨ ∃ g ∈ l, fetchNodeName g = x := by
  induction l generalizing acc with
  | nil => exact Or.inl hx
  | cons a t ih =>
      rw [List.foldl_cons] at hx
      rcases ih _ hx with h | ⟨g, hg, he⟩
      · rcases (mem_setInsert _ _ _).mp h with h1 | rfl
        · exact Or.inl h1
        · exact Or.inr ⟨a, List.mem_cons_self a t, rfl⟩
      · exact Or.inr ⟨g, List.mem_cons_of_mem a hg, he⟩

lemma optimize_skip_eq (ph : Phases) (env : Env) (m : List (String × String))
    (item : GrapplerItem) (c : Nat) (cm : ClusterManagerState)
    (hc : env.convertStatus = Status.ok)
    (he : env.estimatorInitStatus = Status.ok)
    (hd : (ovtfNotEnabled env || item.graph.alreadyProcessed) = true) :
    OptimizeP ph env m item c cm =
      ⟨OptResult.ok, some item.graph, [], c + 1, ⟨[], []⟩⟩ := by
  simp only [OptimizeP, hc, he, hd, FreshIndex]

lemma optimize_full_eq (ph : Phases) (env : Env) (m : List (String × String))
    (item : GrapplerItem) (c : Nat) (cm : ClusterManagerState)
    (g1 g3 g4 g5 : Graph)
    (hc : env.convertStatus = Status.ok)
    (he : env.estimatorInitStatus = Status.ok)
    (hd : (ovtfNotEnabled env || item.graph.alreadyProcessed) = false)
    (ha : ph.addIdentityN item.graph (nodesToAddIdentityToOf env item) = GRes.ok g1)
    (hb : env.getBackendName = Status.ok)
    (has : ph.assignClusters (markNodes env g1) = GRes.ok g3)
    (hde : ph.deassignClusters g3 = GRes.ok g4)
    (hen : ph.encapsulateClusters g4 c m = GRes.ok g5) :
    OptimizeP ph env m item c cm =
      ⟨OptResult.ok, some g5,
        [Event.dump c "unmarked", Event.phase "mark", Event.dump c "marked",
         Event.phase "assign", Event.dump c "clustered",
         Event.phase "deassign", Event.dump c "declustered",
         Event.encap c m, Event.dump c "encapsulated"], c + 1, cm⟩ := by
  simp only [OptimizeP, hc, he, hd, FreshIndex, ha, hb, has, hde, hen]

lemma optimize_encapfail_eq (ph : Phases) (env : Env) (m : List (String × String))
    (item : GrapplerItem) (c : Nat) (cm : ClusterManagerState)
    (g1 g3 g4 : Graph) (e : String)
    (hc : env.convertStatus = Status.ok)
    (he : env.estimatorInitStatus = Status.ok)
    (hd : (ovtfNotEnabled env || item.graph.alreadyProcessed) = false)
    (ha : ph.addIdentityN item.graph (nodesToAddIdentityToOf env item) = GRes.ok g1)
    (hb : env.getBackendName = Status.ok)
    (has : ph.assignClusters (markNodes env g1) = GRes.ok g3)
    (hde : ph.deassignClusters g3 = GRes.ok g4)
    (hen : ph.encapsulateClusters g4 c m = GRes.error e) :
    OptimizeP ph env m item c cm =
      ⟨OptResult.statusError e, none,
        [Event.dump c "unmarked", Event.phase "mark", Event.dump c "marked",
         Event.phase "assign", Event.dump c "clustered",
         Event.phase "deassign", Event.dump c "declustered",
         Event.encap c m], c + 1, cm⟩ := by
  simp only [OptimizeP, hc, he, hd, FreshIndex, ha, hb, has, hde, hen]

lemma optimize_backendfail_eq (ph : Phases) (env : Env) (m : List (String × String))
    (item : GrapplerItem) (c : Nat) (cm : ClusterManagerState)
    (g1 : Graph) (msg : String)
    (hc : env.convertStatus = Status.ok)
    (he : env.estimatorInitStatus = Status.ok)
    (hd : (ovtfNotEnabled env || item.graph.alreadyProcessed) = false)
    (ha : ph.addIdentityN item.graph (nodesToAddIdentityToOf env item) = GRes.ok g1)
    (hb : env.getBackendName = Status.error msg) :
    OptimizeP ph env m item c cm =
      ⟨OptResult.thrown msg, none, [Event.dump c "unmarked"], c + 1, cm⟩ := by
  simp only [OptimizeP, hc, he, hd, FreshIndex, ha, hb]

lemma optimize_not_skip (ph : Phases) (env : Env) (m : List (String × String))
    (item : GrapplerItem) (c : Nat) (cm : ClusterManagerState)
    (hc : env.convertStatus = Status.ok)
    (he : env.estimatorInitStatus = Status.ok)
    (hd : (ovtfNotEnabled env || item.graph.alreadyProcessed) = false) :
    OptimizeP ph env m item c cm ≠
      ⟨OptResult.ok, some item.graph, [], c + 1, ⟨[], []⟩⟩ := by
  intro heq
  unfold OptimizeP at heq
  rw [hc, he, hd] at heq
  dsimp only at heq
  cases haid : ph.addIdentityN item.graph (nodesToAddIdentityToOf env item) with
  | error e => rw [haid] at heq; simp at heq
  | ok g1 =>
  rw [haid] at heq
  dsimp only at heq
  cases hb : env.getBackendName with
  | error msg => rw [hb] at heq; simp at heq
  | ok =>
  rw [hb] at heq
  dsimp only at heq
  cases has : ph.assignClusters (markNodes env g1) with
  | error e => rw [has] at heq; simp at heq
  | ok g3 =>
  rw [has] at heq
  dsimp only at heq
  cases hde : ph.deassignClusters g3 with
  | error e => rw [hde] at heq; simp at heq
  | ok g4 =>
  rw [hde] at heq
  dsimp only at heq
  cases hen : ph.encapsulateClusters g4 (FreshIndex c).1 m with
  | error e => rw [hen] at heq; simp at heq
  | ok g5 => rw [hen] at heq; simp at heq

lemma encapModel_marker (g : Graph) (i : Nat) (cfg : List (String × String))
    (g' : Graph) (h : encapsulateClustersModel g i cfg = GRes.ok g') :
    g'.alreadyProcessed = true := by
  unfold encapsulateClustersModel at h
  by_cases hd : (g.node.any (fun n => n.input.any (fun i => !(g.node.any (fun m => m.name == i))))) = true
  · rw [if_pos hd] at h
    exact (GRes.noConfusion h)
  · rw [if_neg hd] at h
    simp only [GRes.ok.injEq] at h
    rw [← h]

lemma optimizeM_success_shape (env : Env) (m : List (String × String))
    (item : GrapplerItem) (c : Nat) (cm : ClusterManagerState) (og : Graph)
    (h1 : (OptimizeM env m item c cm).result = OptResult.ok)
    (h2 : (OptimizeM env m item c cm).output = some og) :
    env.convertStatus = Status.ok ∧ env.estimatorInitStatus = Status.ok ∧
      ((og = item.graph ∧
          (ovtfNotEnabled env || item.graph.alreadyProcessed) = true) ∨
        og.alreadyProcessed = true) := by
  unfold OptimizeM OptimizeP at h1 h2
  cases hc : env.convertStatus with
  | error e => rw [hc] at h1; exact absurd h1 (by simp)
  | ok =>
  rw [hc] at h1 h2
  cases he : env.estimatorInitStatus with
  | error e => rw [he] at h1; dsimp only at h1; exact absurd h1 (by simp)
  | ok =>
  rw [he] at h1 h2
  dsimp only at h1 h2
  refine ⟨rfl, rfl, ?_⟩
  cases hd : (ovtfNotEnabled env || item.graph.alreadyProcessed) with
  | true =>
      rw [hd] at h1 h2
      dsimp only at h1 h2
      exact Or.inl ⟨(Option.some.injEq _ _).mp h2.symm, rfl⟩
  | false =>
      rw [hd] at h1 h2
      dsimp only at h1 h2
      cases haid : specPhases.addIdentityN item.graph (nodesToAddIdentityToOf env item) with
      | error e => rw [haid] at h1; dsimp only at h1; exact absurd h1 (by simp)
      | ok g1 =>
      rw [haid] at h1 h2
      dsimp only at h1 h2
      cases hb : env.getBackendName with
      | error msg => rw [hb] at h1; dsimp only at h1; exact absurd h1 (by simp)
      | ok =>
      rw [hb] at h1 h2
      dsimp only at h1 h2
      cases has : specPhases.assignClusters (markNodes env g1) with
      | error e => rw [has] at h1; dsimp only at h1; exact absurd h1 (by simp)
      | ok g3 =>
      rw [has] at h1 h2
      dsimp only at h1 h2
      cases hde : specPhases.deassignClusters g3 with
      | error e => rw [hde] at h1; dsimp only at h1; exact absurd h1 (by simp)
      | ok g4 =>
      rw [hde] at h1 h2
      dsimp only at h1 h2
      cases hen : specPhases.encapsulateClusters g4 (FreshIndex c).1 m with
      | error e => rw [hen] at h1; dsimp only at h1; exact absurd h1 (by simp)
      | ok g5 =>
      rw [hen] at h1 h2
      dsimp only at h1 h2
      have hog : g5 = og := (Option.some.injEq _ _).mp h2
      refine Or.inr ?_
      rw [← hog]
      exact encapModel_marker _ _ _ _ hen

lemma string_append_left_cancel (s a b : String) (h : s ++ a = s ++ b) : a = b := by
  have h2 : (s ++ a).data = (s ++ b).data := congrArg String.data h
  rw [String.data_append, String.data_append] at h2
  have h3 := List.append_cancel_left h2
  cases a; cases b
  exact congrArg String.mk h3

lemma init_foldl_append (params acc : List (String × String))
    (hdis : ∀ p ∈ params, (acc.any (fun q => q.fst == "_ovtf_" ++ p.fst)) = false)
    (hnd : (params.map Prod.fst).Nodup) :
    params.foldl (fun m p => mapSet m ("_ovtf_" ++ p.fst) p.snd) acc
      = acc ++ params.map (fun p => ("_ovtf_" ++ p.fst, p.snd)) := by
  induction params generalizing acc with
  | nil => simp
  | cons p ps ih =>
      rw [List.foldl_cons]
      have hstep : mapSet acc ("_ovtf_" ++ p.fst) p.snd
          = acc ++ [("_ovtf_" ++ p.fst, p.snd)] := by
        unfold mapSet
        rw [if_neg (by rw [hdis p (List.mem_cons_self p ps)]; exact Bool.false_ne_true)]
      rw [hstep]
      rw [List.map_cons] at hnd
      have hnotin : p.fst ∉ ps.map Prod.fst := (List.nodup_cons.mp hnd).1
      have hdis2 : ∀ q ∈ ps,
          ((acc ++ [("_ovtf_" ++ p.fst, p.snd)]).any
            (fun r => r.fst == "_ovtf_" ++ q.fst)) = false := by
        intro q hq
        rw [List.any_append, hdis q (List.mem_cons_of_mem p hq)]
        have hne : "_ovtf_" ++ p.fst ≠ "_ovtf_" ++ q.fst := by
          intro he
          exact hnotin (string_append_left_cancel _ _ _ he ▸ List.mem_map_of_mem Prod.fst hq)
        simp [hne]
      rw [ih _ hdis2 (List.nodup_cons.mp hnd).2, List.append_assoc]
      rfl

lemma mapFind_prepend (params : List (String × String)) (k v : String)
    (hnd : (params.map Prod.fst).Nodup) (hm : (k, v) ∈ params) :
    mapFind (params.map (fun p => ("_ovtf_" ++ p.fst, p.snd))) ("_ovtf_" ++ k)
      = some v := by
  induction params with
  | nil => cases hm
  | cons q ps ih =>
      rw [List.map_cons] at hnd ⊢
      unfold mapFind
      by_cases hqk : q.fst = k
      · rw [List.find?_cons]
        have hb : ((("_ovtf_" ++ q.fst, q.snd) : String × String).fst
            == "_ovtf_" ++ k) = true := by
          simp [hqk]
        rw [hb]
        rcases List.mem_cons.mp hm with he | hin
        · simp [← he]
        · exfalso
          exact (List.nodup_cons.mp hnd).1
            (hqk ▸ (List.mem_map_of_mem Prod.fst hin))
      · rw [List.find?_cons]
        have hb : ((("_ovtf_" ++ q.fst, q.snd) : String × String).fst
            == "_ovtf_" ++ k) = false := by
          refine beq_eq_false_iff_ne.mpr ?_
          intro he
          exact hqk (string_append_left_cancel _ _ _ he)
        rw [hb]
        have hin : (k, v) ∈ ps := by
          rcases List.mem_cons.mp hm with he | hin
          · exact absurd (congrArg Prod.fst he).symm hqk
          · exact hin
        have := ih (List.nodup_cons.mp hnd).2 hin
        unfold mapFind at this
        exact this

lemma encap_event_config (ph : Phases) (env : Env) (m : List (String × String))
    (item : GrapplerItem) (c : Nat) (cm : ClusterManagerState) (i : Nat)
    (cfg : List (String × String))
    (h : Event.encap i cfg ∈ (OptimizeP ph env m item c cm).events) : cfg = m := by
  unfold OptimizeP at h
  cases hc : env.convertStatus with
  | error e => rw [hc] at h; simp at h
  | ok =>
  rw [hc] at h
  cases he : env.estimatorInitStatus with
  | error e => rw [he] at h; simp at h
  | ok =>
  rw [he] at h
  dsimp only at h
  cases hd : (ovtfNotEnabled env || item.graph.alreadyProcessed) with
  | true => rw [hd] at h; simp at h
  | false =>
  rw [hd] at h
  dsimp only at h
  cases haid : ph.addIdentityN item.graph (nodesToAddIdentityToOf env item) with
  | error e => rw [haid] at h; simp at h
  | ok g1 =>
  rw [haid] at h
  dsimp only at h
  cases hb : env.getBackendName with
  | error msg => rw [hb] at h; simp at h
  | ok =>
  rw [hb] at h
  dsimp only at h
  cases has : ph.assignClusters (markNodes env g1) with
  | error e => rw [has] at h; simp at h
  | ok g3 =>
  rw [has] at h
  dsimp only at h
  cases hde : ph.deassignClusters g3 with
  | error e => rw [hde] at h; simp at h
  | ok g4 =>
  rw [hde] at h
  dsimp only at h
  cases hen : ph.encapsulateClusters g4 (FreshIndex c).1 m with
  | error e => rw [hen] at h; simp at h; exact h.2
  | ok g5 => rw [hen] at h; simp at h; exact h.2

/- ------------------------------------------------------------------ -/
/- Claim theorems                                                      -/
/- ------------------------------------------------------------------ -/

/-- Claim C10: for every GraphDef `g`, an `OVTFGraphIterator` constructed
over `g` satisfies `size()` equal to the number of nodes in `g`; after
`reset()`, `k` calls to `next()` make `is_end()` true exactly when `k` is
at least `size()`; while `is_end()` is false, `get_decoder()` returns a
decoder for the node of `g` at the current position; hence one
reset-to-end traversal visits every node of `g` exactly once, in the
order the nodes appear in `g`. -/
theorem C10_iterator_traversal (g : GraphDef) (k : Nat) :
    (OVTFGraphIterator.ofGraphDef g).size = g.node.length ∧
    (((OVTFGraphIterator.ofGraphDef g).reset.nextIter k).is_end
      = decide (g.node.length ≤ k)) ∧
    (k < g.node.length →
      ((OVTFGraphIterator.ofGraphDef g).reset.nextIter k).get_decoder
        = g.node.get? k) ∧
    ((List.range (OVTFGraphIterator.ofGraphDef g).size).map
        (fun i => ((OVTFGraphIterator.ofGraphDef g).reset.nextIter i).get_decoder)
      = g.node.map some) := by
  have hm : ∀ i, ((OVTFGraphIterator.ofGraphDef g).reset.nextIter i).m_nodes = g.node := by
    intro i
    rw [nextIter_m_nodes]
    rfl
  have hn : ∀ i, ((OVTFGraphIterator.ofGraphDef g).reset.nextIter i).node_index = i := by
    intro i
    rw [nextIter_node_index]
    show 0 + i = i
    omega
  have hg : ∀ i, ((OVTFGraphIterator.ofGraphDef g).reset.nextIter i).get_decoder
      = g.node.get? i := by
    intro i
    unfold OVTFGraphIterator.get_decoder
    rw [hm, hn]
  refine ⟨rfl, ?_, fun _ => hg k, ?_⟩
  · unfold OVTFGraphIterator.is_end
    rw [hm, hn]
  · have hsz : (OVTFGraphIterator.ofGraphDef g).size = g.node.length := rfl
    rw [hsz]
    calc (List.range g.node.length).map
          (fun i => ((OVTFGraphIterator.ofGraphDef g).reset.nextIter i).get_decoder)
        = (List.range g.node.length).map (fun i => g.node.get? i) := by
          exact List.map_congr_left (fun i _ => hg i)
      _ = g.node.map some := range_map_get? g.node

/-- Witness for C10: concrete two-node graph, position 1 is in bounds and
the decoder there wraps the second node. -/
theorem C10_iterator_traversal_witness :
    (1 < (itemFeedF.graph : GraphDef).node.length) ∧
    ((OVTFGraphIterator.ofGraphDef itemFeedF.graph).reset.nextIter 1).get_decoder
      = itemFeedF.graph.node.get? 1 :=
  ⟨by decide, (C10_iterator_traversal itemFeedF.graph 1).2.2.1 (by decide)⟩

/-- Claim C8: successive calls to `FreshIndex` return strictly increasing
integers — each call returns the previous value plus one — so every pass
invocation obtains a pass index distinct from that of every earlier
invocation. -/
theorem C8_fresh_index_strictly_increasing (c k j : Nat) :
    nthFreshIndex c k = c + k ∧
    nthFreshIndex c (k + 1) = nthFreshIndex c k + 1 ∧
    (j < k → nthFreshIndex c j < nthFreshIndex c k) ∧
    (j ≠ k → nthFreshIndex c j ≠ nthFreshIndex c k) := by
  have h : ∀ n, nthFreshIndex c n = c + n := by
    intro n
    unfold nthFreshIndex FreshIndex
    rw [counterAfter_eq]
  refine ⟨h k, ?_, ?_, ?_⟩
  · rw [h (k + 1), h k]
    omega
  · intro hj
    rw [h j, h k]
    omega
  · intro hj
    rw [h j, h k]
    omega

/-- Witness for C8: calls number 2 and number 4 (counter starting at 5)
return distinct, increasing indices. -/
theorem C8_fresh_index_witness :
    nthFreshIndex 5 1 < nthFreshIndex 5 3 ∧ nthFreshIndex 5 1 ≠ nthFreshIndex 5 3 :=
  ⟨(C8_fresh_index_strictly_increasing 5 3 1).2.2.1 (by decide),
   (C8_fresh_index_strictly_increasing 5 3 1).2.2.2 (by decide)⟩

/-- Claim C7: for every fetch entry, the recorded fetch-node name is the
substring of the entry before the first colon when an output-slot suffix
is present, and the entire entry when no colon is present; each fetch
entry inserts exactly that one name into the fetch-node set, and the set
contains nothing else. -/
theorem C7_fetch_name_extraction (fetch : List String) (f x : String) :
    fetchNodeName f = ⟨f.data.takeWhile (fun c => !(c == ':'))⟩ ∧
    ((':' ∈ f.data) → ∃ rest, f.data = (fetchNodeName f).data ++ ':' :: rest) ∧
    ((':' ∉ f.data) → fetchNodeName f = f) ∧
    (f ∈ fetch → fetchNodeName f ∈ fetchNodesOf fetch) ∧
    (x ∈ fetchNodesOf fetch → ∃ g ∈ fetch, fetchNodeName g = x) := by
  have h1 : fetchNodeName f = ⟨f.data.takeWhile (fun c => !(c == ':'))⟩ := by
    have h0 : fetchNodeName f = ⟨match f.data.findIdx? (fun c => c == ':') with
        | some pos => f.data.take pos
        | none => f.data⟩ := by
      unfold fetchNodeName findColon
      cases f.data.findIdx? (fun c => c == ':') <;> rfl
    rw [h0, take_findIdx_eq_takeWhile]
  refine ⟨h1, ?_, ?_, mem_foldl_setInsert_of_mem fetch [] f, ?_⟩
  · intro hc
    rcases takeWhile_colon_split f.data hc with ⟨rest, hr⟩
    refine ⟨rest, ?_⟩
    have hdata : (fetchNodeName f).data = f.data.takeWhile (fun c => !(c == ':')) := by
      rw [h1]
    rw [hdata]
    exact hr
  · intro hnc
    unfold fetchNodeName
    rw [show findColon f = none from findIdx?_eq_none_of_not_mem f.data hnc]
  · intro hx
    rcases mem_foldl_setInsert_cases fetch [] x hx with h | h
    · cases h
    · exact h

/-- Witness for C7: entry `"a:0"` yields name `"a"`, inserted into the
set; entry `"b"` without colon yields itself. -/
theorem C7_fetch_name_extraction_witness :
    (':' ∈ ("a:0" : String).data) ∧
    (∃ rest, ("a:0" : String).data = (fetchNodeName "a:0").data ++ ':' :: rest) ∧
    (':' ∉ ("b" : String).data) ∧ fetchNodeName "b" = "b" ∧
    ("a:0" ∈ (["a:0", "b"] : List String)) ∧
    fetchNodeName "a:0" ∈ fetchNodesOf ["a:0", "b"] :=
  ⟨by decide,
   (C7_fetch_name_extraction ["a:0", "b"] "a:0" "a").2.1 (by decide),
   by decide,
   (C7_fetch_name_extraction ["a:0", "b"] "b" "b").2.2.1 (by decide),
   by decide,
   (C7_fetch_name_extraction ["a:0", "b"] "a:0" "a").2.2.2.1 (by decide)⟩

/-- Claim C9: `Init` stores every configuration parameter `(k, v)` into
the configuration map under the key `"_ovtf_" ++ k` with the value
unchanged and returns success, and the resulting map is exactly what
`Optimize` later forwards to the Encapsulator. -/
theorem C9_init_config_map (params : List (String × String)) (k v : String) :
    ((params.map Prod.fst).Nodup →
      ((k, v) ∈ params →
        mapFind (Init params).fst ("_ovtf_" ++ k) = some v) ∧
      (Init params).fst = params.map (fun p => ("_ovtf_" ++ p.fst, p.snd))) ∧
    (Init params).snd = Status.ok ∧
    (∀ ph env item c cm i cfg,
      Event.encap i cfg ∈ (OptimizeP ph env (Init params).fst item c cm).events →
      cfg = (Init params).fst) := by
  refine ⟨?_, rfl, ?_⟩
  · intro hnd
    have hchar : (Init params).fst
        = params.map (fun p => ("_ovtf_" ++ p.fst, p.snd)) := by
      unfold Init
      rw [init_foldl_append params [] (fun p _ => rfl) hnd]
      rfl
    refine ⟨?_, hchar⟩
    intro hm
    rw [hchar]
    exact mapFind_prepend params k v hnd hm
  · intro ph env item c cm i cfg h
    exact encap_event_config ph env (Init params).fst item c cm i cfg h

/-- Witness for C9: the parameter `("device_id", "0")` ends up under key
`"_ovtf_device_id"` with value `"0"`, and `Init` returns OK. -/
theorem C9_init_config_map_witness :
    mapFind (Init [("device_id", "0")]).fst ("_ovtf_" ++ "device_id") = some "0" ∧
    (Init [("device_id", "0")]).snd = Status.ok :=
  ⟨((C9_init_config_map [("device_id", "0")] "device_id" "0").1 (by decide)).1
      (by decide),
   (C9_init_config_map [("device_id", "0")] "device_id" "0").2.1⟩

/-- Claim C6: when the pass is neither disabled nor skipped and every
external step succeeds, `Optimize` executes exactly the four phases —
node marking, cluster assignment, cluster deassignment, cluster
encapsulation — in that order, each phase a whole-graph step completing
before the next begins, with diagnostic dump points at the five stages
"unmarked", "marked", "clustered", "declustered", "encapsulated", all
keyed by the pass index `c`. -/
theorem C6_four_phases_in_order (ph : Phases) (env : Env)
    (m : List (String × String)) (item : GrapplerItem) (c : Nat)
    (cm : ClusterManagerState) (g1 g3 g4 g5 : Graph)
    (hc : env.convertStatus = Status.ok)
    (he : env.estimatorInitStatus = Status.ok)
    (hd : (ovtfNotEnabled env || item.graph.alreadyProcessed) = false)
    (ha : ph.addIdentityN item.graph (nodesToAddIdentityToOf env item) = GRes.ok g1)
    (hb : env.getBackendName = Status.ok)
    (has : ph.assignClusters (markNodes env g1) = GRes.ok g3)
    (hde : ph.deassignClusters g3 = GRes.ok g4)
    (hen : ph.encapsulateClusters g4 c m = GRes.ok g5) :
    OptimizeP ph env m item c cm =
      ⟨OptResult.ok, some g5,
        [Event.dump c "unmarked", Event.phase "mark", Event.dump c "marked",
         Event.phase "assign", Event.dump c "clustered",
         Event.phase "deassign", Event.dump c "declustered",
         Event.encap c m, Event.dump c "encapsulated"], c + 1, cm⟩ :=
  optimize_full_eq ph env m item c cm g1 g3 g4 g5 hc he hd ha hb has hde hen

/-- Witness for C6: full successful run of the spec-modelled pipeline on
a one-node graph, producing the nine events in order. -/
theorem C6_four_phases_in_order_witness :
    OptimizeM envOn [] itemOneAdd 0 ⟨[], []⟩ =
      ⟨OptResult.ok,
        some ⟨[⟨"ovtf_cluster_0_0", "_OVTFEncapsulate", [], [], none⟩], true⟩,
        [Event.dump 0 "unmarked", Event.phase "mark", Event.dump 0 "marked",
         Event.phase "assign", Event.dump 0 "clustered",
         Event.phase "deassign", Event.dump 0 "declustered",
         Event.encap 0 [], Event.dump 0 "encapsulated"], 1, ⟨[], []⟩⟩ :=
  C6_four_phases_in_order specPhases envOn [] itemOneAdd 0 ⟨[], []⟩
    itemOneAdd.graph
    ⟨[⟨"x", "Add", [], [("_ovtf_marked_for_clustering", AttrVal.b true)], some 0⟩], false⟩
    ⟨[⟨"x", "Add", [], [("_ovtf_marked_for_clustering", AttrVal.b true)], some 0⟩], false⟩
    ⟨[⟨"ovtf_cluster_0_0", "_OVTFEncapsulate", [], [], none⟩], true⟩
    rfl rfl rfl rfl rfl rfl rfl rfl

/-- Claim C5: if the backend device name cannot be resolved, the pass
invocation aborts by throwing with the query's error message unmodified;
nothing is written through the output pointer and no marking or
clustering phase runs after the failure. -/
theorem C5_backend_failure_aborts (ph : Phases) (env : Env)
    (m : List (String × String)) (item : GrapplerItem) (c : Nat)
    (cm : ClusterManagerState) (g1 : Graph) (msg : String)
    (hc : env.convertStatus = Status.ok)
    (he : env.estimatorInitStatus = Status.ok)
    (hd : (ovtfNotEnabled env || item.graph.alreadyProcessed) = false)
    (ha : ph.addIdentityN item.graph (nodesToAddIdentityToOf env item) = GRes.ok g1)
    (hb : env.getBackendName = Status.error msg) :
    OptimizeP ph env m item c cm =
      ⟨OptResult.thrown msg, none, [Event.dump c "unmarked"], c + 1, cm⟩ ∧
    (∀ s, Event.phase s ∉ (OptimizeP ph env m item c cm).events) ∧
    (∀ i cfg, Event.encap i cfg ∉ (OptimizeP ph env m item c cm).events) := by
  have hq := optimize_backendfail_eq ph env m item c cm g1 msg hc he hd ha hb
  refine ⟨hq, ?_, ?_⟩
  · intro s
    rw [hq]
    simp
  · intro i cfg
    rw [hq]
    simp

/-- Witness for C5: concrete run in which the backend query fails; the
invocation throws that message, writes no output and runs no phase. -/
theorem C5_backend_failure_aborts_witness :
    OptimizeM envNoBackend [] itemOneAdd 0 ⟨[], []⟩ =
      ⟨OptResult.thrown "Backend unavailable", none, [Event.dump 0 "unmarked"],
        1, ⟨[], []⟩⟩ ∧
    (∀ s, Event.phase s ∉ (OptimizeM envNoBackend [] itemOneAdd 0 ⟨[], []⟩).events) :=
  ⟨(C5_backend_failure_aborts specPhases envNoBackend [] itemOneAdd 0 ⟨[], []⟩
      itemOneAdd.graph "Backend unavailable" rfl rfl rfl rfl rfl).1,
   (C5_backend_failure_aborts specPhases envNoBackend [] itemOneAdd 0 ⟨[], []⟩
      itemOneAdd.graph "Backend unavailable" rfl rfl rfl rfl rfl).2.1⟩

/-- Claim C4: if the cluster-encapsulation phase fails, `Optimize`
returns that error status, nothing is ever written through the output
pointer (no partial rewritten graph reaches the caller), and the
"encapsulated" dump never happens. -/
theorem C4_encapsulation_failure_no_partial_output (ph : Phases) (env : Env)
    (m : List (String × String)) (item : GrapplerItem) (c : Nat)
    (cm : ClusterManagerState) (g1 g3 g4 : Graph) (e : String)
    (hc : env.convertStatus = Status.ok)
    (he : env.estimatorInitStatus = Status.ok)
    (hd : (ovtfNotEnabled env || item.graph.alreadyProcessed) = false)
    (ha : ph.addIdentityN item.graph (nodesToAddIdentityToOf env item) = GRes.ok g1)
    (hb : env.getBackendName = Status.ok)
    (has : ph.assignClusters (markNodes env g1) = GRes.ok g3)
    (hde : ph.deassignClusters g3 = GRes.ok g4)
    (hen : ph.encapsulateClusters g4 c m = GRes.error e) :
    (OptimizeP ph env m item c cm).result = OptResult.statusError e ∧
    (OptimizeP ph env m item c cm).output = none ∧
    Event.dump c "encapsulated" ∉ (OptimizeP ph env m item c cm).events := by
  have hq := optimize_encapfail_eq ph env m item c cm g1 g3 g4 e hc he hd ha hb has hde hen
  rw [hq]
  refine ⟨rfl, rfl, ?_⟩
  simp

/-- Witness for C4: concrete run whose encapsulation step fails with a
dangling-edge error; the status is returned and no output is written. -/
theorem C4_encapsulation_failure_witness :
    (OptimizeP phasesEncapFail envOn [] itemOneAdd 0 ⟨[], []⟩).result
      = OptResult.statusError "dangling edge" ∧
    (OptimizeP phasesEncapFail envOn [] itemOneAdd 0 ⟨[], []⟩).output = none :=
  ⟨(C4_encapsulation_failure_no_partial_output phasesEncapFail envOn [] itemOneAdd 0
      ⟨[], []⟩ itemOneAdd.graph (markNodes envOn itemOneAdd.graph)
      (markNodes envOn itemOneAdd.graph) "dangling edge"
      rfl rfl rfl rfl rfl rfl rfl rfl).1,
   (C4_encapsulation_failure_no_partial_output phasesEncapFail envOn [] itemOneAdd 0
      ⟨[], []⟩ itemOneAdd.graph (markNodes envOn itemOneAdd.graph)
      (markNodes envOn itemOneAdd.graph) "dangling edge"
      rfl rfl rfl rfl rfl rfl rfl rfl).2.1⟩

/-- Claim C3 counterexample: `OPENVINO_TF_DISABLE` set to `"10"` — a set
value other than `"1"` — with the API enabled and the graph unprocessed
still puts the pass into pass-through mode (success, unchanged graph,
caches evicted), refuting "for no other set value of that variable". -/
theorem C3_counterexample :
    some "10" ≠ some "1" ∧
    envDisabled10.openvinoTfDisable = some "10" ∧
    envDisabled10.apiEnabled = true ∧
    itemOneAdd.graph.alreadyProcessed = false ∧
    OptimizeM envDisabled10 [] itemOneAdd 0 ⟨[3], [4]⟩ =
      ⟨OptResult.ok, some itemOneAdd.graph, [], 1, ⟨[], []⟩⟩ := by
  exact ⟨by decide, rfl, rfl, rfl, rfl⟩

/-- Claim C3 (amended): with the API enabled, the graph not already
processed and conversion/estimator succeeding, the pass enters
pass-through mode — success status, the input graph returned unchanged,
no pipeline events, both cluster caches evicted — exactly when
`OPENVINO_TF_DISABLE` is set and its first character is `'1'` (hence also
for values such as "10"), not exactly for the literal value "1". -/
theorem C3_env_toggle_amended (ph : Phases) (env : Env)
    (m : List (String × String)) (item : GrapplerItem) (c : Nat)
    (cm : ClusterManagerState)
    (hc : env.convertStatus = Status.ok)
    (he : env.estimatorInitStatus = Status.ok)
    (hapi : env.apiEnabled = true)
    (hpr : item.graph.alreadyProcessed = false) :
    OptimizeP ph env m item c cm =
        ⟨OptResult.ok, some item.graph, [], c + 1, ⟨[], []⟩⟩
      ↔ (∃ v, env.openvinoTfDisable = some v ∧ firstCharIsOne v = true) := by
  constructor
  · intro heq
    cases hvo : env.openvinoTfDisable with
    | none =>
        exfalso
        have hne : ovtfNotEnabled env = false := by
          unfold ovtfNotEnabled
          rw [hapi, hvo]
          rfl
        exact optimize_not_skip ph env m item c cm hc he (by rw [hne, hpr]; rfl) heq
    | some v =>
        cases hfc : firstCharIsOne v with
        | true => exact ⟨v, rfl, hfc⟩
        | false =>
            exfalso
            have hne : ovtfNotEnabled env = false := by
              unfold ovtfNotEnabled
              rw [hapi, hvo]
              dsimp only
              rw [hfc]
              rfl
            exact optimize_not_skip ph env m item c cm hc he (by rw [hne, hpr]; rfl) heq
  · rintro ⟨v, hv, h1⟩
    have hne : ovtfNotEnabled env = true := by
      unfold ovtfNotEnabled
      rw [hv]
      dsimp only
      rw [h1]
      simp
    exact optimize_skip_eq ph env m item c cm hc he (by rw [hne]; rfl)

/-- Witness for C3 (amended): with the variable set to `"1"` the pass
does enter pass-through mode. -/
theorem C3_env_toggle_amended_witness :
    OptimizeM envDisabled1 [] itemOneAdd 0 ⟨[], []⟩ =
      ⟨OptResult.ok, some itemOneAdd.graph, [], 1, ⟨[], []⟩⟩ :=
  (C3_env_toggle_amended specPhases envDisabled1 [] itemOneAdd 0 ⟨[], []⟩
      rfl rfl rfl rfl).mpr ⟨"1", rfl, rfl⟩

/-- Claim C2: a graph carrying the already-processed marker makes
`Optimize` skip all four clustering phases (no pipeline events) and
return the graph unchanged with success status; consequently a second run
on the output of any successful first run returns that output
unchanged. -/
theorem C2_soft_skip_idempotence (env : Env) (m : List (String × String))
    (item : GrapplerItem) (c c2 : Nat) (cm cm2 : ClusterManagerState) (og : Graph) :
    (env.convertStatus = Status.ok → env.estimatorInitStatus = Status.ok →
      item.graph.alreadyProcessed = true →
      OptimizeM env m item c cm =
        ⟨OptResult.ok, some item.graph, [], c + 1, ⟨[], []⟩⟩) ∧
    ((OptimizeM env m item c cm).result = OptResult.ok →
      (OptimizeM env m item c cm).output = some og →
      (OptimizeM env m ⟨og, item.feed, item.fetch, item.keep_ops, item.init_ops⟩
          c2 cm2).result = OptResult.ok ∧
      (OptimizeM env m ⟨og, item.feed, item.fetch, item.keep_ops, item.init_ops⟩
          c2 cm2).output = some og) := by
  constructor
  · intro hc he hp
    exact optimize_skip_eq specPhases env m item c cm hc he (by rw [hp]; simp)
  · intro h1 h2
    rcases optimizeM_success_shape env m item c cm og h1 h2 with ⟨hc, he, hcase⟩
    have hskip : (ovtfNotEnabled env || og.alreadyProcessed) = true := by
      rcases hcase with ⟨hog, hcond⟩ | hm
      · rw [hog]
        exact hcond
      · rw [hm]
        simp
    have hq := optimize_skip_eq specPhases env m
      ⟨og, item.feed, item.fetch, item.keep_ops, item.init_ops⟩ c2 cm2 hc he hskip
    unfold OptimizeM
    rw [hq]
    exact ⟨rfl, rfl⟩

/-- Witness for C2: a first run on an already-marked graph succeeds and
returns it; the second run on that output returns it unchanged. -/
theorem C2_soft_skip_idempotence_witness :
    (OptimizeM envOn [] ⟨itemDone.graph, itemDone.feed, itemDone.fetch,
        itemDone.keep_ops, itemDone.init_ops⟩ 1 ⟨[], []⟩).result = OptResult.ok ∧
    (OptimizeM envOn [] ⟨itemDone.graph, itemDone.feed, itemDone.fetch,
        itemDone.keep_ops, itemDone.init_ops⟩ 1 ⟨[], []⟩).output
      = some itemDone.graph :=
  (C2_soft_skip_idempotence envOn [] itemDone 0 1 ⟨[], []⟩ ⟨[], []⟩
    itemDone.graph).2 rfl rfl

/-- Claim C1, evaluated at the failing input: the feed name `"f"` is in
`nodes_to_preserve` (lines 114-125), yet — because `nodes_to_preserve` is
never passed to any marking or clustering callee — the run marks `f`,
assigns it into cluster 0 together with `g`, and encapsulates it away:
the output graph consists of the fused cluster node alone and contains no
node named `"f"`. -/
theorem C1_protected_feed_clustered :
    "f" ∈ nodesToPreserveOf itemFeedF ∧
    (assignClustersModel (markNodes envOn itemFeedF.graph) = GRes.ok
      ⟨[nodeFClustered, nodeGClustered], false⟩) ∧
    (OptimizeM envOn [] itemFeedF 0 ⟨[], []⟩).result = OptResult.ok ∧
    (OptimizeM envOn [] itemFeedF 0 ⟨[], []⟩).output =
      some ⟨[⟨"ovtf_cluster_0_0", "_OVTFEncapsulate", [], [], none⟩], true⟩ ∧
    ((OptimizeM envOn [] itemFeedF 0 ⟨[], []⟩).output.map
        (fun gr => gr.node.any (fun n => n.name == "f"))) = some false := by
  refine ⟨by decide, rfl, rfl, rfl, rfl⟩

end OVTF
